import Mathlib

/-!
Verification of the FastAPI blog CRUD service (`app/main.py`).

The service is embedded shallowly: the relational store is a record of two
row lists plus autoincrement counters, each route handler is a Lean function
from its inputs and the store to an HTTP-level result paired with the
resulting store.  Python `int` is embedded as `Int`; strings as `String`.
Row shapes come from the persisted schema `posts(id, title, content)` and
`comments(id, post_id, body)`.
-/

/-- Modelled from the spec: a row of the `posts` table — `posts(id PK, title,
content)`; mirrors the `PostDB` model of `app/models/models.py` (file not
provided). -/
structure PostDB where
  id : Int
  title : String
  content : String
deriving Repr, DecidableEq

/-- Modelled from the spec: a row of the `comments` table — `comments(id PK,
post_id FK, body)`; mirrors the `CommentDB` model of `app/models/models.py`
(file not provided). -/
structure CommentDB where
  id : Int
  post_id : Int
  body : String
deriving Repr, DecidableEq

/-- Modelled from the spec: the create-post payload `{title, content}`
(`PostCreate` in `app/models/models.py`). -/
structure PostCreate where
  title : String
  content : String
deriving Repr, DecidableEq

/-- Modelled from the spec: the partial-update payload `{title?, content?}`
(`PostPartialUpdate` in `app/models/models.py`); `none` stands for a field
absent from the request, which `model_dump(exclude_unset=True)` omits. -/
structure PostPartialUpdate where
  title : Option String
  content : Option String
deriving Repr, DecidableEq

/-- Modelled from the spec: the create-comment payload `{post_id, body}`
(`CommentCreate` in `app/models/models.py`). -/
structure CommentCreate where
  post_id : Int
  body : String
deriving Repr, DecidableEq

/-- The `PostPublic` read model returned by `get_post_or_404`: the post row
with its comments attached (`PostPublic(**raw_post, comments=comments_list)`). -/
structure PostPublic where
  id : Int
  title : String
  content : String
  comments : List CommentDB
deriving Repr, DecidableEq

/-- The relational store: the two tables plus store-assigned autoincrement
counters for primary keys.  The database is the sole source of truth; the
service holds no other state across requests. -/
structure Database where
  posts : List PostDB
  comments : List CommentDB
  nextPostId : Int
  nextCommentId : Int
deriving Repr, DecidableEq

/-- `fastapi.HTTPException(status_code, detail)`. -/
structure HTTPException where
  status_code : Nat
  detail : Option String
deriving Repr, DecidableEq

/-- Outcome of a route handler: either a value served with the route's
declared success status code, or a raised `HTTPException`. -/
inductive HttpResult (α : Type) where
  | ok (status : Nat) (value : α)
  | err (e : HTTPException)
deriving Repr, DecidableEq

/-- `pagination` (`app/main.py` lines 65-70): `capped_limit = min(100, limit)`;
returns `(skip, capped_limit)`.  Negative inputs are rejected upstream by the
`Query(ge=0)` constraints. -/
def pagination (skip limit : Int) : Int × Int :=
  let capped_limit := min 100 limit
  (skip, capped_limit)

/-- `get_post_or_404` (`app/main.py` lines 72-83): fetch the post row whose
`id` column equals `id`; raise 404 when there is none; otherwise fetch the
comments whose `post_id` equals `id` and build the `PostPublic` view. -/
def get_post_or_404 (id : Int) (database : Database) : Except HTTPException PostPublic :=
  match database.posts.find? (fun p => p.id == id) with
  | none => .error ⟨404, none⟩
  | some raw_post =>
    let comments_list := database.comments.filter (fun c => c.post_id == id)
    .ok ⟨raw_post.id, raw_post.title, raw_post.content, comments_list⟩

/-- `create_post` (`app/main.py` lines 87-98), `POST /posts`, declared status
201: insert the payload as a new row (the store assigns `nextPostId`), then
read the created post back through `get_post_or_404`. -/
def create_post (post : PostCreate) (database : Database) :
    HttpResult PostPublic × Database :=
  let post_id := database.nextPostId
  let database2 : Database :=
    { database with
      posts := database.posts ++ [{ id := post_id, title := post.title, content := post.content }],
      nextPostId := database.nextPostId + 1 }
  match get_post_or_404 post_id database2 with
  | .error e => (.err e, database2)
  | .ok post_db => (.ok 201 post_db, database2)

/-- `list_posts` (`app/main.py` lines 101-113), `GET /posts`: takes the pair
produced by the `pagination` dependency and serves the window
`OFFSET skip LIMIT limit` of the posts table in storage order. -/
def list_posts (p : Int × Int) (database : Database) : List PostDB :=
  let (skip, limit) := p
  (database.posts.drop skip.toNat).take limit.toNat

/-- `get_post` (`app/main.py` lines 115-117), `GET /posts/{id}`: serves the
`get_post_or_404` dependency's result with status 200. -/
def get_post (id : Int) (database : Database) : HttpResult PostPublic × Database :=
  match get_post_or_404 id database with
  | .error e => (.err e, database)
  | .ok post => (.ok 200 post, database)

/-- Applying one row update with "exclude unset" semantics: only fields
present in the payload overwrite the row's columns. -/
def apply_update (u : PostPartialUpdate) (p : PostDB) : PostDB :=
  { p with
    title := u.title.getD p.title,
    content := u.content.getD p.content }

/-- `update_post` (`app/main.py` lines 157-174), `PATCH /posts/{id}`: resolve
the post through `get_post_or_404` (404 when absent), update the columns of
every row whose `id` equals `post.id` with the explicitly provided fields
(`model_dump(exclude_unset=True)`), then re-fetch the post detail. -/
def update_post (id : Int) (post_update : PostPartialUpdate) (database : Database) :
    HttpResult PostPublic × Database :=
  match get_post_or_404 id database with
  | .error e => (.err e, database)
  | .ok post =>
    let database2 : Database :=
      { database with
        posts := database.posts.map
          (fun p => if p.id == post.id then apply_update post_update p else p) }
    match get_post_or_404 post.id database2 with
    | .error e => (.err e, database2)
    | .ok post_db => (.ok 200 post_db, database2)

/-- `delete_post` (`app/main.py` lines 176-183), `DELETE /posts/{id}`,
declared status 204 No Content: resolve the post through `get_post_or_404`
(404 when absent), delete every row whose `id` equals `post.id`, and — as the
source does — return `post.id` as the handler's value. -/
def delete_post (id : Int) (database : Database) : HttpResult Int × Database :=
  match get_post_or_404 id database with
  | .error e => (.err e, database)
  | .ok post =>
    let database2 : Database :=
      { database with posts := database.posts.filter (fun p => !(p.id == post.id)) }
    (.ok 204 post.id, database2)

/-- `create_comment` (`app/main.py` lines 185-205), `POST /comments`, declared
status 201: check the referenced post exists (400 with a descriptive message
when it does not), insert the comment row (the store assigns
`nextCommentId`), and read the created comment back. -/
def create_comment (comment : CommentCreate) (database : Database) :
    HttpResult CommentDB × Database :=
  match database.posts.find? (fun p => p.id == comment.post_id) with
  | none =>
    (.err ⟨400, some ("Post " ++ toString comment.post_id ++ " does not exist")⟩, database)
  | some _ =>
    let comment_id := database.nextCommentId
    let database2 : Database :=
      { database with
        comments := database.comments ++ [{ id := comment_id, post_id := comment.post_id, body := comment.body }],
        nextCommentId := database.nextCommentId + 1 }
    match database2.comments.find? (fun c => c.id == comment_id) with
    | none => (.err ⟨500, none⟩, database2)
    | some raw_comment => (.ok 201 raw_comment, database2)

/-- `list_comments` (`app/main.py` lines 208-218), `GET /comments`: serves
every comment row. -/
def list_comments (database : Database) : List CommentDB :=
  database.comments

/-- Modelled from the spec: the structured validation error FastAPI raises as
`RequestValidationError` — the error details list and the offending raw
request body (the FastAPI class itself is external infrastructure). -/
structure RequestValidationError where
  errors : List String
  body : String
deriving Repr, DecidableEq

/-- The JSON response built by the validation error translator: a status code
and the content object `{"detail": ..., "body": ...}`. -/
structure ValidationJSONResponse where
  status_code : Nat
  detail : List String
  body : String
deriving Repr, DecidableEq

/-- `validation_exception_handler` (`app/main.py` lines 38-47): log, then
respond 422 with `{"detail": exc.errors(), "body": exc.body}`. -/
def validation_exception_handler (exc : RequestValidationError) : ValidationJSONResponse :=
  { status_code := 422, detail := exc.errors, body := exc.body }

/-- The application-level step for a request that fails schema validation:
the exception handler intercepts it before any route handler runs, so the
store is passed through untouched (`validation_exception_handler` performs
only logging and takes no database handle). -/
def app_reject_invalid_request (exc : RequestValidationError) (database : Database) :
    ValidationJSONResponse × Database :=
  (validation_exception_handler exc, database)

/-- C1: for every skip ≥ 0 and limit ≥ 0 supplied to the pagination helper,
it returns the pair (skip, min(limit, 100)); in particular the returned
limit is never greater than 100 and the skip value is returned unchanged. -/
theorem pagination_clamps_limit (skip limit : Int) (hs : 0 ≤ skip) (hl : 0 ≤ limit) :
    pagination skip limit = (skip, min limit 100) ∧
    (pagination skip limit).2 ≤ 100 ∧ (pagination skip limit).1 = skip := by
  have h : pagination skip limit = (skip, min 100 limit) := rfl
  rw [h]
  exact ⟨by rw [min_comm], min_le_left 100 limit, rfl⟩

/-- Witness for C1 at skip = 7, limit = 250. -/
theorem pagination_clamps_limit_witness :
    (0:Int) ≤ 7 ∧ (0:Int) ≤ 250 ∧
    (pagination 7 250 = (7, min 250 100) ∧
     (pagination 7 250).2 ≤ 100 ∧ (pagination 7 250).1 = 7) :=
  ⟨by decide, by decide, pagination_clamps_limit 7 250 (by decide) (by decide)⟩

/-- C2: for every database state and every requested limit L ≥ 0 (and any
skip ≥ 0), the list returned by the list-posts operation has length at most
min(L, 100). -/
theorem list_posts_length_le (db : Database) (skip L : Int)
    (hs : 0 ≤ skip) (hL : 0 ≤ L) :
    ((list_posts (pagination skip L) db).length : Int) ≤ min L 100 := by
  have h : list_posts (pagination skip L) db
      = (db.posts.drop skip.toNat).take (min 100 L).toNat := rfl
  rw [h]
  have h2 := List.length_take (min 100 L).toNat (db.posts.drop skip.toNat)
  omega

/-- Witness for C2 at skip = 0, L = 5 on a one-post store. -/
theorem list_posts_length_le_witness :
    (0:Int) ≤ 0 ∧ (0:Int) ≤ 5 ∧
    ((list_posts (pagination 0 5) ⟨[⟨1,"A","B"⟩],[],2,1⟩).length : Int) ≤ min 5 100 :=
  ⟨by decide, by decide,
   list_posts_length_le ⟨[⟨1,"A","B"⟩],[],2,1⟩ 0 5 (by decide) (by decide)⟩

/-- C3: on a store holding exactly post 1, deleting post 1 removes the row
and deleting a missing id yields 404 — but the handler's value is the
deleted id 1, a response body, despite the declared 204 No Content status;
so the claim's "no response body" fails on the code (the source returns
`post.id` on its 204 route, which the spec itself flags as a defect). -/
theorem delete_post_returns_deleted_id :
    delete_post 1 ⟨[⟨1, "A", "B"⟩], [], 2, 1⟩ =
      (HttpResult.ok 204 1, ⟨[], [], 2, 1⟩) ∧
    (delete_post 2 ⟨[⟨1, "A", "B"⟩], [], 2, 1⟩).1 = HttpResult.err ⟨404, none⟩ := by
  exact ⟨rfl, rfl⟩

/-- C4: for every database state and comment-creation request whose post_id
matches no existing post, the operation fails with HTTP 400 carrying a
descriptive message and the store (hence the comments table) is unchanged;
and whenever comment creation succeeds, the referenced post existed in the
pre-state. -/
theorem create_comment_requires_post (c : CommentCreate) (db : Database) :
    (db.posts.find? (fun p => p.id == c.post_id) = none →
      create_comment c db =
        (HttpResult.err ⟨400, some ("Post " ++ toString c.post_id ++ " does not exist")⟩, db)) ∧
    (∀ s r db2, create_comment c db = (HttpResult.ok s r, db2) →
      ∃ p ∈ db.posts, p.id = c.post_id) := by
  constructor
  · intro h
    unfold create_comment
    rw [h]
  · intro s r db2 hok
    unfold create_comment at hok
    cases hfind : db.posts.find? (fun p => p.id == c.post_id) with
    | none => rw [hfind] at hok; simp at hok
    | some p =>
      have hp := List.find?_some hfind
      have hmem := List.mem_of_find?_eq_some hfind
      exact ⟨p, hmem, by simpa using hp⟩

/-- Witness for C4: requesting a comment on missing post 9 yields 400 and
leaves the one-post store untouched. -/
theorem create_comment_requires_post_witness :
    create_comment ⟨9, "hi"⟩ ⟨[⟨1,"A","B"⟩],[],2,1⟩ =
      (HttpResult.err ⟨400, some ("Post " ++ toString (9:Int) ++ " does not exist")⟩,
       ⟨[⟨1,"A","B"⟩],[],2,1⟩) :=
  (create_comment_requires_post ⟨9, "hi"⟩ ⟨[⟨1,"A","B"⟩],[],2,1⟩).1 rfl

/-- C5: for every valid post-creation payload, on a store where no existing
row already carries the next store-assigned id, create-post returns status
201 with a post whose title and content equal the submitted values, the
posts table grows by exactly one row, and a subsequent get-by-id with the
returned id yields an identical post. -/
theorem create_post_spec (post : PostCreate) (db : Database)
    (hid : ∀ p ∈ db.posts, p.id ≠ db.nextPostId) :
    ∃ pb db2,
      create_post post db = (HttpResult.ok 201 pb, db2) ∧
      pb.title = post.title ∧ pb.content = post.content ∧
      db2.posts.length = db.posts.length + 1 ∧
      get_post pb.id db2 = (HttpResult.ok 200 pb, db2) := by
  have hnone : db.posts.find? (fun p => p.id == db.nextPostId) = none := by
    rw [List.find?_eq_none]
    intro p hp
    simpa using hid p hp
  have hfind :
      (db.posts ++ [({ id := db.nextPostId, title := post.title, content := post.content } : PostDB)]).find?
        (fun p => p.id == db.nextPostId)
      = some { id := db.nextPostId, title := post.title, content := post.content } := by
    rw [List.find?_append, hnone]
    simp
  refine ⟨{ id := db.nextPostId, title := post.title, content := post.content,
            comments := db.comments.filter (fun c => c.post_id == db.nextPostId) },
          { db with
            posts := db.posts ++ [{ id := db.nextPostId, title := post.title, content := post.content }],
            nextPostId := db.nextPostId + 1 },
          ?_, rfl, rfl, by simp, ?_⟩
  · unfold create_post get_post_or_404
    simp only [hfind]
  · unfold get_post get_post_or_404
    simp only [hfind]

/-- Witness for C5: creating ("t","c") on a one-post store with fresh next
id 2. -/
theorem create_post_spec_witness :
    (∀ p ∈ (⟨[⟨1,"A","B"⟩],[],2,1⟩ : Database).posts,
        p.id ≠ (⟨[⟨1,"A","B"⟩],[],2,1⟩ : Database).nextPostId) ∧
    (∃ pb db2,
      create_post ⟨"t","c"⟩ ⟨[⟨1,"A","B"⟩],[],2,1⟩ = (HttpResult.ok 201 pb, db2) ∧
      pb.title = "t" ∧ pb.content = "c" ∧
      db2.posts.length = (⟨[⟨1,"A","B"⟩],[],2,1⟩ : Database).posts.length + 1 ∧
      get_post pb.id db2 = (HttpResult.ok 200 pb, db2)) :=
  ⟨by decide, create_post_spec ⟨"t","c"⟩ ⟨[⟨1,"A","B"⟩],[],2,1⟩ (by decide)⟩

/-- C6: partially updating an existing post with a field set containing only
a title sets the title of the matching row (and of the returned detail) to
the supplied value, leaves its content unchanged, leaves every other post
row unchanged, and leaves the comments table unchanged — the resulting
store is exactly the old one with only matching rows retitled. -/
theorem update_post_title_only (db : Database) (id : Int) (X : String) (q : PostDB)
    (h : db.posts.find? (fun p => p.id == id) = some q) :
    update_post id ⟨some X, none⟩ db =
      (HttpResult.ok 200
        ⟨id, X, q.content, db.comments.filter (fun c => c.post_id == id)⟩,
       { db with posts := (db.posts.map (fun p => if p.id == id then { p with title := X } else p)) }) := by
  have hqid : q.id = id := by simpa using List.find?_some h
  subst hqid
  have hmap :
      (db.posts.map (fun p => if p.id == q.id then apply_update ⟨some X, none⟩ p else p)).find?
        (fun p => p.id == q.id)
      = some (apply_update ⟨some X, none⟩ q) := by
    rw [List.find?_map]
    have hcomp :
        ((fun p : PostDB => p.id == q.id) ∘
          (fun p => if p.id == q.id then apply_update ⟨some X, none⟩ p else p))
        = (fun p : PostDB => p.id == q.id) := by
      funext p
      by_cases hp : p.id = q.id <;> simp [hp, apply_update]
    rw [hcomp, h]
    simp [apply_update]
  unfold update_post get_post_or_404
  rw [h]
  simp only [hmap]
  simp [apply_update]

/-- Witness for C6: patching post 1 of a one-post store with only a new
title leaves the content "B" in place. -/
theorem update_post_title_only_witness :
    (⟨[⟨1,"A","B"⟩],[],2,1⟩ : Database).posts.find? (fun p => p.id == 1) = some ⟨1,"A","B"⟩ ∧
    update_post 1 ⟨some ("X"), none⟩ ⟨[⟨1,"A","B"⟩],[],2,1⟩ =
      (HttpResult.ok 200 ⟨1, "X", "B", []⟩, ⟨[⟨1,"X","B"⟩],[],2,1⟩) :=
  ⟨by decide, update_post_title_only ⟨[⟨1,"A","B"⟩],[],2,1⟩ 1 "X" ⟨1,"A","B"⟩ (by decide)⟩

/-- C7: whenever delete-post succeeds on an id (responding with its declared
204 status), an immediately following get-post on the same id against the
resulting store yields HTTP 404. -/
theorem delete_then_get_404 (id v : Int) (db db2 : Database)
    (h : delete_post id db = (HttpResult.ok 204 v, db2)) :
    get_post id db2 = (HttpResult.err ⟨404, none⟩, db2) := by
  unfold delete_post at h
  cases hfind : db.posts.find? (fun p => p.id == id) with
  | none =>
    unfold get_post_or_404 at h
    rw [hfind] at h
    simp at h
  | some q =>
    have hqid : q.id = id := by simpa using List.find?_some hfind
    unfold get_post_or_404 at h
    rw [hfind] at h
    simp only [] at h
    have hdb2 : db2 = { db with posts := db.posts.filter (fun p => !(p.id == q.id)) } := by
      cases h
      rfl
    subst hdb2
    have hnone :
        (db.posts.filter (fun p => !(p.id == q.id))).find? (fun p => p.id == id) = none := by
      rw [List.find?_eq_none]
      intro p hp
      have hmem := (List.mem_filter.mp hp).2
      simp only [Bool.not_eq_true', beq_eq_false_iff_ne] at hmem
      simp [hqid] at hmem ⊢
      exact hmem
    unfold get_post get_post_or_404
    simp only [hnone]

/-- Witness for C7: deleting post 1 and then getting post 1 yields 404. -/
theorem delete_then_get_404_witness :
    delete_post 1 ⟨[⟨1,"A","B"⟩],[],2,1⟩ = (HttpResult.ok 204 1, ⟨[],[],2,1⟩) ∧
    get_post 1 ⟨[],[],2,1⟩ = (HttpResult.err ⟨404, none⟩, ⟨[],[],2,1⟩) :=
  ⟨rfl, delete_then_get_404 1 1 ⟨[⟨1,"A","B"⟩],[],2,1⟩ ⟨[],[],2,1⟩ rfl⟩

/-- C8: every request failing schema validation is answered with HTTP 422
whose content carries the structured error details under "detail" and the
original request payload under "body", and the store is unchanged (the
exception handler runs instead of any route handler and touches no
database). -/
theorem validation_failure_422 (exc : RequestValidationError) (db : Database) :
    app_reject_invalid_request exc db =
      ({ status_code := 422, detail := exc.errors, body := exc.body }, db) := rfl

/-- C9: deleting a post (or attempting to) leaves every row of the comments
table unchanged — the handler performs no cascade delete, so comments
whose post_id references the deleted post remain in the store. -/
theorem delete_post_preserves_comments (id : Int) (db : Database) :
    (delete_post id db).2.comments = db.comments := by
  unfold delete_post
  cases hget : get_post_or_404 id db with
  | error e => rfl
  | ok post => rfl

/-- C10: a list-posts request with limit = 0 is accepted, the clamped limit
is 0, and the returned list is empty, for every database state and every
skip value. -/
theorem list_posts_limit_zero (db : Database) (skip : Int) :
    list_posts (pagination skip 0) db = [] := by
  have h : pagination skip 0 = (skip, 0) := by
    unfold pagination
    norm_num
  rw [h]
  rfl
